import Mathlib

/-
Verification of the tinnitus-care audio engine (src/app.js, engine class
TinnitusAudioEngine) against its natural-language specification.

Part 1 below embeds the signal-synthesizer recipes (the per-sample loops of
createRainBuffer, createWaveBuffer, createForestBuffer).  Randomness is made
explicit: each call to Math.random produces a value from a stream that is a
parameter of the embedding.  The brown-noise recurrence is kept over the
rationals so that concrete values are decidable; the sinusoidal envelopes
need Real.sin and live over the reals.

Part 2 embeds the session controller: the mutable fields of the engine
object become an explicit state record, audio-device nodes become integer
handles allocated from a counter, and the node graph becomes an edge list.
-/

namespace TinnitusCare

/-! ### Part 1: signal synthesizer -/

/-- One step of the leaky-integrator recurrence shared by createRainBuffer and
createWaveBuffer: the source computes `out = (lastOut + (0.02 * white)) / 1.002`. -/
def brownStep (lastOut white : ℚ) : ℚ :=
  (lastOut + (0.02 * white)) / 1.002

/-- The brown-noise base process: `lastOut` starts at 0 and each sample applies
`brownStep` to the previous output and a fresh white-noise draw `white i`
(uniform in `[-1,1)` in the source; here an arbitrary stream). -/
def brownSeq (white : ℕ → ℚ) : ℕ → ℚ
  | 0 => brownStep 0 (white 0)
  | n + 1 => brownStep (brownSeq white n) (white (n + 1))

/-- Sample `i` of one channel of createRainBuffer: the brown-noise output is
scaled by 2, and when the gating draw `gate i` (a Math.random value in `[0,1)`)
exceeds 0.9995 a crackle `spike i * 0.5` is added, where `spike i` is a fresh
draw in `[-1,1)`. -/
def rainSample (white gate spike : ℕ → ℚ) (i : ℕ) : ℚ :=
  brownSeq white i * 2 + (if 0.9995 < gate i then spike i * 0.5 else 0)

/-- Sample `i` of one channel of createWaveBuffer (buffer length `N`): the
brown-noise output scaled by 4 and multiplied by the slow LFO
`0.5 + 0.5 * sin((i / N) * pi * 2)`. -/
noncomputable def waveSample (white : ℕ → ℚ) (N i : ℕ) : ℝ :=
  (brownSeq white i : ℝ) * 4 * (0.5 + 0.5 * Real.sin ((i / N) * Real.pi * 2))

/-- State of the seven-term pink-noise filter bank used by createForestBuffer,
createNightBuffer and createTempleBuffer. -/
structure PinkState where
  b0 : ℝ
  b1 : ℝ
  b2 : ℝ
  b3 : ℝ
  b4 : ℝ
  b5 : ℝ
  b6 : ℝ

/-- One iteration of the pink-noise loop body: updates b0..b5, computes the
output from the updated taps together with the OLD b6 (the source assigns b6
after computing out), then updates b6. -/
noncomputable def pinkStep (p : PinkState) (white : ℝ) : PinkState × ℝ :=
  let b0 := 0.99886 * p.b0 + white * 0.0555179
  let b1 := 0.99332 * p.b1 + white * 0.0750759
  let b2 := 0.96900 * p.b2 + white * 0.1538520
  let b3 := 0.86650 * p.b3 + white * 0.3104856
  let b4 := 0.55000 * p.b4 + white * 0.5329522
  let b5 := -0.7616 * p.b5 - white * 0.0168980
  let out := (b0 + b1 + b2 + b3 + b4 + b5 + p.b6 + white * 0.5362) * 0.11
  (⟨b0, b1, b2, b3, b4, b5, white * 0.115926⟩, out)

/-- Filter state and output after processing samples 0..i of the white stream,
starting from the all-zero state as in the source. -/
noncomputable def pinkIter (white : ℕ → ℝ) : ℕ → PinkState × ℝ
  | 0 => pinkStep ⟨0, 0, 0, 0, 0, 0, 0⟩ (white 0)
  | n + 1 => pinkStep (pinkIter white n).1 (white (n + 1))

/-- Pink-noise output at sample index i. -/
noncomputable def pinkOut (white : ℕ → ℝ) (i : ℕ) : ℝ :=
  (pinkIter white i).2

/-- The forest wind envelope as a function of the relative position t = i / N
in the buffer: the source computes `0.7 + 0.3 * sin((i / bufferSize) * pi * 4)`. -/
noncomputable def windFun (t : ℝ) : ℝ :=
  0.7 + 0.3 * Real.sin (t * Real.pi * 4)

/-- The wind envelope applied at sample index i of a buffer of length N. -/
noncomputable def forestWind (N i : ℕ) : ℝ :=
  windFun ((i : ℝ) / (N : ℝ))

/-- Sample `i` of one channel of createForestBuffer (buffer length `N`): the
pink-noise output multiplied by the wind envelope. -/
noncomputable def forestSample (white : ℕ → ℝ) (N i : ℕ) : ℝ :=
  pinkOut white i * forestWind N i

/-- The formula the spec states for the brown-noise base process:
`out = (prev + k * white) / (1 + k)` with `k = 0.02`, so divisor 1.02. -/
def brownStepSpec (prev white : ℚ) : ℚ :=
  (prev + 0.02 * white) / 1.02

/-- The envelope the spec states for the Forest texture: same sinusoid but
with claimed range `[0.7, 1.0]`; the claim is falsified below because the
actual envelope dips to 0.4. -/
noncomputable def forestWindLowerClaim (N i : ℕ) : Prop :=
  0.7 ≤ forestWind N i

/-- The brown-noise process in the shape the spec words it:
`out[i] = (prev + k * white[i]) / d`, `prev` starting at 0, parameterized by
the coefficient k and the divisor d so that the claimed divisor 1.02 and the
divisor 1.002 of the source can be compared. -/
def brownSpecSeq (k d : ℚ) (white : ℕ → ℚ) : ℕ → ℚ
  | 0 => (0 + k * white 0) / d
  | n + 1 => (brownSpecSeq k d white n + k * white (n + 1)) / d

/-! ### Part 2: session controller

The mutable fields of the TinnitusAudioEngine object become a state record.
Audio-device nodes are identified by natural-number handles allocated from a
counter `nextId`; the audio graph is the list `edges` of (from, to) handle
pairs.  The destination sink of the device has the fixed handle 0; the
constructor then creates the master gain (handle 1) and the analyser
(handle 2).  Gain and frequency parameter values that the source writes into
device nodes are mirrored in dedicated fields so that parameter updates stay
observable. -/

structure EngineState where
  nextId : ℕ
  analyser : Option ℕ
  masterGain : Option ℕ
  testOscillator : Option ℕ
  testGain : Option ℕ
  therapySource : Option ℕ
  therapyGain : Option ℕ
  notchFilter : Option ℕ
  isTestTonePlaying : Bool
  isTherapyPlaying : Bool
  currentFrequency : ℤ
  currentVolume : ℚ
  currentSound : String
  oscFreq : ℤ
  filterFreq : ℤ
  testGainValue : ℚ
  therapyGainValue : ℚ
  masterGainValue : ℚ
  timerStart : Option ℕ
  timerRunning : Bool
  therapyDuration : ℕ
  autoStopFires : ℕ
  buffersCreated : ℕ
  edges : List (ℕ × ℕ)
  deriving DecidableEq

/-- Edge insertion for AudioNode.connect: a connection that already exists is
ignored by the device, otherwise the edge is added. -/
def insertEdge (a b : ℕ) (es : List (ℕ × ℕ)) : List (ℕ × ℕ) :=
  if (a, b) ∈ es then es else (a, b) :: es

/-- AudioNode.connect on the state. -/
def connect (a b : ℕ) (s : EngineState) : EngineState :=
  { s with edges := insertEdge a b s.edges }

/-- AudioNode.disconnect with no argument: removes every outgoing edge of the
node. -/
def disconnectNode (n : ℕ) (s : EngineState) : EngineState :=
  { s with edges := s.edges.filter (fun e => e.1 != n) }

/-- The state right after the constructor and initAudioContext succeed:
masterGain (handle 1, gain 0.5) connected to the destination (handle 0), the
analyser (handle 2, fftSize 2048) connected to masterGain, default frequency
4000, volume 0.5, sound whitenoise, no therapy or test-tone nodes. -/
def initState : EngineState where
  nextId := 3
  analyser := some 2
  masterGain := some 1
  testOscillator := none
  testGain := none
  therapySource := none
  therapyGain := none
  notchFilter := none
  isTestTonePlaying := false
  isTherapyPlaying := false
  currentFrequency := 4000
  currentVolume := 1 / 2
  currentSound := "whitenoise"
  oscFreq := 0
  filterFreq := 0
  testGainValue := 0
  therapyGainValue := 0
  masterGainValue := 1 / 2
  timerStart := none
  timerRunning := false
  therapyDuration := 0
  autoStopFires := 0
  buffersCreated := 0
  edges := [(2, 1), (1, 0)]

/-- setFrequency: stores the argument in currentFrequency unconditionally (the
source performs no clamping), then retunes the live test oscillator and the
live notch filter exactly under the conditions the source checks. -/
def setFrequency (f : ℤ) (s : EngineState) : EngineState :=
  let s1 := { s with currentFrequency := f }
  let s2 := if s1.isTestTonePlaying && s1.testOscillator.isSome then
              { s1 with oscFreq := f } else s1
  if s2.isTherapyPlaying && s2.notchFilter.isSome then
    { s2 with filterFreq := f } else s2

/-- setVolume: stores the argument and, when the master gain exists, writes it
into the device gain parameter. -/
def setVolume (v : ℚ) (s : EngineState) : EngineState :=
  let s1 := { s with currentVolume := v }
  if s1.masterGain.isSome then { s1 with masterGainValue := v } else s1

/-- stopTestTone: stops, disconnects and releases the test oscillator and the
test gain when present, then clears the flag. -/
def stopTestTone (s0 : EngineState) : EngineState :=
  let s1 := match s0.testOscillator with
    | some o => { disconnectNode o s0 with testOscillator := none }
    | none => s0
  let s2 := match s1.testGain with
    | some g => { disconnectNode g s1 with testGain := none }
    | none => s1
  { s2 with isTestTonePlaying := false }

/-- playTestTone: if a test tone is already playing this stops it instead;
otherwise it creates a sine oscillator at currentFrequency and a 0.3 gain,
connects oscillator to test gain to master gain, and starts the tone.  On a
state whose audio initialization failed (masterGain absent) the source would
throw on the connect call; such states are outside the initialization
invariant and the model then skips that connect. -/
def playTestTone (s0 : EngineState) : EngineState :=
  if s0.isTestTonePlaying then stopTestTone s0 else
  let oscId := s0.nextId
  let s1 := { s0 with testOscillator := some oscId, nextId := s0.nextId + 1,
                      oscFreq := s0.currentFrequency }
  let tgId := s1.nextId
  let s2 := { s1 with testGain := some tgId, nextId := s1.nextId + 1,
                      testGainValue := 3 / 10 }
  let s3 := connect oscId tgId s2
  let s4 := match s3.masterGain with
    | some m => connect tgId m s3
    | none => s3
  { s4 with isTestTonePlaying := true }

/-- stopTimer: clears the interval when one is running. -/
def stopTimer (s : EngineState) : EngineState :=
  if s.timerRunning then { s with timerRunning := false } else s

/-- stopTherapy: stops, disconnects and releases the source, the notch filter
and the therapy gain, each guarded by its own presence check, clears the
playing flag and stops the timer. -/
def stopTherapy (s0 : EngineState) : EngineState :=
  let s1 := match s0.therapySource with
    | some src => { disconnectNode src s0 with therapySource := none }
    | none => s0
  let s2 := match s1.notchFilter with
    | some f => { disconnectNode f s1 with notchFilter := none }
    | none => s1
  let s3 := match s2.therapyGain with
    | some g => { disconnectNode g s2 with therapyGain := none }
    | none => s2
  stopTimer { s3 with isTherapyPlaying := false }

/-- createNotchFilter inlined into the lazy-create branch of startTherapy: a
notch filter at currentFrequency with Q 30 is created only when absent. -/
def ensureNotchFilter (s : EngineState) : EngineState :=
  match s.notchFilter with
  | some _ => s
  | none => { s with notchFilter := some s.nextId, nextId := s.nextId + 1,
                     filterFreq := s.currentFrequency }

/-- Lazy creation of the therapy gain node (fixed gain 0.7) when absent. -/
def ensureTherapyGain (s : EngineState) : EngineState :=
  match s.therapyGain with
  | some _ => s
  | none => { s with therapyGain := some s.nextId, nextId := s.nextId + 1,
                     therapyGainValue := 7 / 10 }

/-- The guard `node.numberOfOutputs === 0 || !node.connected` that the source
places before the filter-to-gain and gain-to-analyser connect calls.  A gain
or filter node always reports one output, and `connected` is not a Web Audio
property, so it reads as undefined and its negation is true: the guard always
passes and the connect calls always run (duplicate connections are ignored by
the device, see insertEdge). -/
def connectGuard : Bool :=
  (1 == 0) || !false

/-- startTherapy soundType isSwitching, with `now` the abstract current time
used by startTimer.  Mirrors the source line by line: toggle-stop when already
playing and not switching; on a switch, stop and disconnect only the old
source (errors swallowed); assign currentSound; synthesize a buffer (counted
in buffersCreated; the switch over soundType only selects the recipe and
duration and does not affect controller state); create the looping source
node; lazily create filter and gain; connect source to filter, and filter to
gain and gain to analyser behind connectGuard; start playback; start the
timer only when not switching. -/
def startTherapy (soundType : String) (isSwitching : Bool) (now : ℕ)
    (s0 : EngineState) : EngineState :=
  if s0.isTherapyPlaying && !isSwitching then stopTherapy s0 else
  let s1 := if isSwitching then
      match s0.therapySource with
      | some src => disconnectNode src s0
      | none => s0
    else s0
  let s2 := { s1 with currentSound := soundType,
                      buffersCreated := s1.buffersCreated + 1 }
  let srcId := s2.nextId
  let s3 := { s2 with therapySource := some srcId, nextId := s2.nextId + 1 }
  let s4 := ensureNotchFilter s3
  let s5 := ensureTherapyGain s4
  let fltId := s5.notchFilter.getD 0
  let gnId := s5.therapyGain.getD 0
  let s6 := connect srcId fltId s5
  let s7 := if connectGuard then connect fltId gnId s6 else s6
  let s8 := match s7.analyser with
    | some a => if connectGuard then connect gnId a s7 else s7
    | none => s7
  let s9 := { s8 with isTherapyPlaying := true }
  if isSwitching then s9
  else { s9 with timerStart := some now, timerRunning := true }

/-- Modelled from the spec: the engine variant that implements the 30-minute
auto-stop is not among the source files under src; src only contains the
registration of the `onAutoStop` callback in initializeApp (part_000) and a
startTimer whose interval merely recomputes therapyDuration from the start
time once per second.  Per the spec, the elapsed-time counter advances once
per second while the timer interval is live; when it reaches the fixed
threshold of 1800 seconds therapy is stopped automatically and the registered
callback is invoked (counted in autoStopFires).  Once stopped, stopTimer has
cleared the interval, so further ticks change nothing. -/
def timerTick (s : EngineState) : EngineState :=
  if s.timerRunning then
    let s1 := { s with therapyDuration := s.therapyDuration + 1 }
    if 1800 ≤ s1.therapyDuration then
      let s2 := stopTherapy s1
      { s2 with autoStopFires := s2.autoStopFires + 1 }
    else s1
  else s

/-- The record `{ bufferLength, dataArray }` returned by getAnalyserData; the
byte array is modelled by its list of sample bytes. -/
structure AnalyserData where
  bufferLength : ℕ
  dataArray : List ℕ
  deriving DecidableEq

/-- frequencyBinCount of the shared analyser: half of the fftSize 2048 set in
initAudioContext. -/
def frequencyBinCount : ℕ := 1024

/-- getAnalyserData: returns null when the analyser is absent (failed audio
initialization), otherwise allocates a Uint8Array of length
frequencyBinCount, fills it with the device snapshot (here the parameter
`deviceRead`, which stands for getByteTimeDomainData) and returns it together
with bufferLength.  The engine state is not modified and the playing flag is
not consulted. -/
def getAnalyserData (deviceRead : ℕ → List ℕ) (s : EngineState) :
    Option AnalyserData :=
  match s.analyser with
  | none => none
  | some _ => some ⟨frequencyBinCount, deviceRead frequencyBinCount⟩

/-- destroy: stops the test tone, stops therapy, and closes the audio context
(closing has no effect on the modelled fields). -/
def destroy (s : EngineState) : EngineState :=
  stopTherapy (stopTestTone s)

/-- Result type distinguishing a thrown exception from a normal return, used
to state that stopTherapy never raises. -/
inductive JsResult (α : Type) where
  | thrown (msg : String)
  | ok (value : α)
  deriving DecidableEq

/-- Calling .stop() on a node reference raises a TypeError when the reference
is null and succeeds otherwise. -/
def nodeStop (h : Option ℕ) : JsResult Unit :=
  match h with
  | none => JsResult.thrown "TypeError"
  | some _ => JsResult.ok ()

/-- stopTherapy with raising made explicit: each nullable access is guarded by
the same presence check the source performs, so the raising primitive
nodeStop is only ever reached on a non-null handle. -/
def stopTherapyE (s0 : EngineState) : JsResult EngineState :=
  match s0.therapySource with
  | some src =>
      match nodeStop (some src) with
      | JsResult.thrown m => JsResult.thrown m
      | JsResult.ok _ =>
          let s1 := { disconnectNode src s0 with therapySource := none }
          let s2 := match s1.notchFilter with
            | some f => { disconnectNode f s1 with notchFilter := none }
            | none => s1
          let s3 := match s2.therapyGain with
            | some g => { disconnectNode g s2 with therapyGain := none }
            | none => s2
          JsResult.ok (stopTimer { s3 with isTherapyPlaying := false })
  | none =>
      let s1 := s0
      let s2 := match s1.notchFilter with
        | some f => { disconnectNode f s1 with notchFilter := none }
        | none => s1
      let s3 := match s2.therapyGain with
        | some g => { disconnectNode g s2 with therapyGain := none }
        | none => s2
      JsResult.ok (stopTimer { s3 with isTherapyPlaying := false })

/-- The public operations of the controller, used to state that every one of
them preserves the processing-graph invariant. -/
inductive Op where
  | setFrequency (f : ℤ)
  | setVolume (v : ℚ)
  | playTestTone
  | stopTestTone
  | startTherapy (soundType : String) (isSwitching : Bool) (now : ℕ)
  | stopTherapy
  | timerTick
  | getAnalyserData
  | destroy
  deriving DecidableEq

/-- State transition of one public operation; getAnalyserData is a pure read
and leaves the state unchanged. -/
def step (op : Op) (s : EngineState) : EngineState :=
  match op with
  | Op.setFrequency f => setFrequency f s
  | Op.setVolume v => setVolume v s
  | Op.playTestTone => playTestTone s
  | Op.stopTestTone => stopTestTone s
  | Op.startTherapy t sw now => startTherapy t sw now s
  | Op.stopTherapy => stopTherapy s
  | Op.timerTick => timerTick s
  | Op.getAnalyserData => s
  | Op.destroy => destroy s

/-- A concrete state with therapy in progress: rain started on the freshly
initialized engine at time 0.  Used as the concrete playing state of the
witnesses. -/
def playingState : EngineState :=
  startTherapy "rain" false 0 initState

/-- The state after the constructor when initAudioContext fails: no master
gain and no analyser exist and the graph is empty; playback operations then
degrade (getAnalyserData returns null). -/
def failedInitState : EngineState where
  nextId := 0
  analyser := none
  masterGain := none
  testOscillator := none
  testGain := none
  therapySource := none
  therapyGain := none
  notchFilter := none
  isTestTonePlaying := false
  isTherapyPlaying := false
  currentFrequency := 4000
  currentVolume := 1 / 2
  currentSound := "whitenoise"
  oscFreq := 0
  filterFreq := 0
  testGainValue := 0
  therapyGainValue := 0
  masterGainValue := 1 / 2
  timerStart := none
  timerRunning := false
  therapyDuration := 0
  autoStopFires := 0
  buffersCreated := 0
  edges := []

/-! ### Invariants -/

/-- The processing-graph invariant of the spec: whenever isTherapyPlaying is
true, the source, the notch filter and the therapy gain are all non-null and
connected source to filter to gain to sink (the analyser); whenever it is
false, all three handles are null.  The analyser itself exists for the whole
life of a successfully initialized engine. -/
def graphInv (s : EngineState) : Prop :=
  s.analyser ≠ none ∧
  (s.isTherapyPlaying = true →
    s.therapySource ≠ none ∧ s.notchFilter ≠ none ∧ s.therapyGain ≠ none ∧
    (s.therapySource.getD 0, s.notchFilter.getD 0) ∈ s.edges ∧
    (s.notchFilter.getD 0, s.therapyGain.getD 0) ∈ s.edges ∧
    (s.therapyGain.getD 0, s.analyser.getD 0) ∈ s.edges) ∧
  (s.isTherapyPlaying = false →
    s.therapySource = none ∧ s.notchFilter = none ∧ s.therapyGain = none)

instance (s : EngineState) : Decidable (graphInv s) := by
  unfold graphInv; infer_instance

/-- A handle is fresh-bounded when it is below the allocation counter. -/
def freshLt (o : Option ℕ) (n : ℕ) : Prop :=
  o = none ∨ o.getD 0 < n

instance (o : Option ℕ) (n : ℕ) : Decidable (freshLt o n) := by
  unfold freshLt; infer_instance

/-- Two optional handles name different device objects unless one is absent. -/
def handlesNe (a b : Option ℕ) : Prop :=
  a = none ∨ b = none ∨ a ≠ b

instance (a b : Option ℕ) : Decidable (handlesNe a b) := by
  unfold handlesNe; infer_instance

/-- Allocation well-formedness: every live handle is below the allocation
counter, and the test-tone handles are distinct from the therapy handles (so
tearing down one chain cannot disconnect the other). -/
def idsOk (s : EngineState) : Prop :=
  freshLt s.analyser s.nextId ∧ freshLt s.masterGain s.nextId ∧
  freshLt s.testOscillator s.nextId ∧ freshLt s.testGain s.nextId ∧
  freshLt s.therapySource s.nextId ∧ freshLt s.notchFilter s.nextId ∧
  freshLt s.therapyGain s.nextId ∧
  handlesNe s.testOscillator s.therapySource ∧
  handlesNe s.testOscillator s.notchFilter ∧
  handlesNe s.testOscillator s.therapyGain ∧
  handlesNe s.testGain s.therapySource ∧
  handlesNe s.testGain s.notchFilter ∧
  handlesNe s.testGain s.therapyGain

instance (s : EngineState) : Decidable (idsOk s) := by
  unfold idsOk; infer_instance

/-- The full inductive invariant: the graph invariant of the spec strengthened
with allocation well-formedness. -/
def invFull (s : EngineState) : Prop :=
  graphInv s ∧ idsOk s

instance (s : EngineState) : Decidable (invFull s) := by
  unfold invFull; infer_instance

/-! ### Helper lemmas -/

theorem mem_insertEdge_self (a b : ℕ) (es : List (ℕ × ℕ)) :
    (a, b) ∈ insertEdge a b es := by
  unfold insertEdge; split
  · assumption
  · exact List.mem_cons_self _ _

theorem mem_insertEdge_of_mem {e : ℕ × ℕ} {es : List (ℕ × ℕ)} (a b : ℕ)
    (h : e ∈ es) : e ∈ insertEdge a b es := by
  unfold insertEdge; split
  · exact h
  · exact List.mem_cons_of_mem _ h

theorem mem_filter_ne {x y n : ℕ} {es : List (ℕ × ℕ)}
    (h : (x, y) ∈ es) (hne : x ≠ n) :
    (x, y) ∈ es.filter (fun e => e.1 != n) := by
  refine List.mem_filter.2 ⟨h, ?_⟩
  simpa using hne

theorem freshLt_mono {o : Option ℕ} {n m : ℕ} (h : freshLt o n) (hnm : n ≤ m) :
    freshLt o m := by
  rcases h with h | h
  · exact Or.inl h
  · exact Or.inr (lt_of_lt_of_le h hnm)

theorem freshLt_none (n : ℕ) : freshLt none n := Or.inl rfl

theorem freshLt_self (n : ℕ) : freshLt (some n) (n + 1) := by
  exact Or.inr (by simp)

theorem handlesNe_of_freshLt {a : Option ℕ} {n : ℕ} (h : freshLt a n) :
    handlesNe a (some n) := by
  rcases a with _ | x
  · exact Or.inl rfl
  · rcases h with h | h
    · simp at h
    · refine Or.inr (Or.inr ?_)
      simp only [Option.getD_some] at h
      simp only [ne_eq, Option.some.injEq]
      omega

theorem handlesNe_none_right (a : Option ℕ) : handlesNe a none :=
  Or.inr (Or.inl rfl)

theorem handlesNe_none_left (b : Option ℕ) : handlesNe none b := Or.inl rfl

theorem handlesNe_fresh_left {b : Option ℕ} {n : ℕ} (h : freshLt b n) :
    handlesNe (some n) b := by
  rcases b with _ | x
  · exact Or.inr (Or.inl rfl)
  · rcases h with h | h
    · simp at h
    · refine Or.inr (Or.inr ?_)
      simp only [Option.getD_some] at h
      simp only [ne_eq, Option.some.injEq]
      omega

/-- Field behaviour of stopTherapy: the three therapy handles are released,
playing flag and timer cleared, everything else untouched. -/
theorem stopTherapy_fields (s : EngineState) :
    (stopTherapy s).therapySource = none ∧
    (stopTherapy s).notchFilter = none ∧
    (stopTherapy s).therapyGain = none ∧
    (stopTherapy s).isTherapyPlaying = false ∧
    (stopTherapy s).timerRunning = false ∧
    (stopTherapy s).analyser = s.analyser ∧
    (stopTherapy s).masterGain = s.masterGain ∧
    (stopTherapy s).testOscillator = s.testOscillator ∧
    (stopTherapy s).testGain = s.testGain ∧
    (stopTherapy s).isTestTonePlaying = s.isTestTonePlaying ∧
    (stopTherapy s).nextId = s.nextId ∧
    (stopTherapy s).currentFrequency = s.currentFrequency ∧
    (stopTherapy s).currentVolume = s.currentVolume ∧
    (stopTherapy s).currentSound = s.currentSound ∧
    (stopTherapy s).timerStart = s.timerStart ∧
    (stopTherapy s).therapyDuration = s.therapyDuration ∧
    (stopTherapy s).autoStopFires = s.autoStopFires ∧
    (stopTherapy s).buffersCreated = s.buffersCreated := by
  unfold stopTherapy stopTimer disconnectNode
  rcases h1 : s.therapySource with _ | src <;>
    rcases h2 : s.notchFilter with _ | f <;>
      rcases h3 : s.therapyGain with _ | g <;>
        simp [h1, h2, h3] <;> split <;> simp_all

/-- stopTherapy on a state that has no therapy resources and no running timer
is the identity: the already-satisfied postcondition. -/
theorem stopTherapy_clean {s : EngineState}
    (h1 : s.therapySource = none) (h2 : s.notchFilter = none)
    (h3 : s.therapyGain = none) (h4 : s.isTherapyPlaying = false)
    (h5 : s.timerRunning = false) :
    stopTherapy s = s := by
  cases s
  unfold stopTherapy stopTimer
  simp_all

/-- Field behaviour of stopTestTone: the tone handles are released and the
flag cleared, the therapy side and everything else untouched. -/
theorem stopTestTone_fields (s : EngineState) :
    (stopTestTone s).testOscillator = none ∧
    (stopTestTone s).testGain = none ∧
    (stopTestTone s).isTestTonePlaying = false ∧
    (stopTestTone s).therapySource = s.therapySource ∧
    (stopTestTone s).notchFilter = s.notchFilter ∧
    (stopTestTone s).therapyGain = s.therapyGain ∧
    (stopTestTone s).isTherapyPlaying = s.isTherapyPlaying ∧
    (stopTestTone s).analyser = s.analyser ∧
    (stopTestTone s).masterGain = s.masterGain ∧
    (stopTestTone s).nextId = s.nextId ∧
    (stopTestTone s).timerRunning = s.timerRunning ∧
    (stopTestTone s).timerStart = s.timerStart ∧
    (stopTestTone s).therapyDuration = s.therapyDuration ∧
    (stopTestTone s).autoStopFires = s.autoStopFires ∧
    (stopTestTone s).buffersCreated = s.buffersCreated ∧
    (stopTestTone s).currentFrequency = s.currentFrequency ∧
    (stopTestTone s).currentVolume = s.currentVolume ∧
    (stopTestTone s).currentSound = s.currentSound := by
  unfold stopTestTone disconnectNode
  rcases h1 : s.testOscillator with _ | o <;>
    rcases h2 : s.testGain with _ | g <;> simp [h1, h2]

/-- A handle named on the left of handlesNe differs from the value on the
right when both are concrete. -/
theorem ne_of_handlesNe_some {o x : ℕ} (h : handlesNe (some o) (some x)) :
    x ≠ o := by
  rcases h with h | h | h
  · cases h
  · cases h
  · intro he; exact h (by rw [he])

/-- An edge whose source endpoint is neither test-tone node survives
stopTestTone. -/
theorem stopTestTone_edges {s : EngineState} {x y : ℕ}
    (h : (x, y) ∈ s.edges)
    (ho : handlesNe s.testOscillator (some x))
    (hg : handlesNe s.testGain (some x)) :
    (x, y) ∈ (stopTestTone s).edges := by
  unfold stopTestTone disconnectNode
  rcases h1 : s.testOscillator with _ | o <;>
    rcases h2 : s.testGain with _ | g <;> simp [h1, h2]
  · exact h
  · rw [h2] at hg
    exact ⟨h, ne_of_handlesNe_some hg⟩
  · rw [h1] at ho
    exact ⟨h, ne_of_handlesNe_some ho⟩
  · rw [h1] at ho; rw [h2] at hg
    exact ⟨h, ne_of_handlesNe_some hg, ne_of_handlesNe_some ho⟩

/-- stopTherapy preserves the full invariant (and establishes the not-playing
half of the graph invariant). -/
theorem invFull_stopTherapy {s : EngineState} (h : invFull s) :
    invFull (stopTherapy s) := by
  obtain ⟨⟨ha, _, _⟩, f1, f2, f3, f4, f5, f6, f7, _, _, _, _, _, _⟩ := h
  obtain ⟨g1, g2, g3, g4, g5, g6, g7, g8, g9, g10, g11, g12, g13, g14, g15,
    g16, g17, g18⟩ := stopTherapy_fields s
  refine ⟨⟨?_, ?_, ?_⟩, ?_⟩
  · rw [g6]; exact ha
  · intro hp; rw [g4] at hp; cases hp
  · intro _; exact ⟨g1, g2, g3⟩
  · rw [idsOk, g1, g2, g3, g6, g7, g8, g9, g11]
    exact ⟨f1, f2, f3, f4, freshLt_none _, freshLt_none _, freshLt_none _,
      handlesNe_none_right _, handlesNe_none_right _, handlesNe_none_right _,
      handlesNe_none_right _, handlesNe_none_right _, handlesNe_none_right _⟩

/-- stopTestTone preserves the full invariant: the therapy chain survives
because its handles are distinct from the test-tone handles. -/
theorem invFull_stopTestTone {s : EngineState} (h : invFull s) :
    invFull (stopTestTone s) := by
  obtain ⟨⟨ha, hplay, hidle⟩, f1, f2, f3, f4, f5, f6, f7, d1, d2, d3, d4, d5, d6⟩ := h
  obtain ⟨g1, g2, g3, g4, g5, g6, g7, g8, g9, g10, g11, g12, g13, g14, g15,
    g16, g17, g18⟩ := stopTestTone_fields s
  refine ⟨⟨?_, ?_, ?_⟩, ?_⟩
  · rw [g8]; exact ha
  · intro hp
    rw [g7] at hp
    obtain ⟨p1, p2, p3, p4, p5, p6⟩ := hplay hp
    rcases hsrc : s.therapySource with _ | src
    · exact absurd hsrc p1
    rcases hflt : s.notchFilter with _ | flt
    · exact absurd hflt p2
    rcases hgn : s.therapyGain with _ | gn
    · exact absurd hgn p3
    rcases han : s.analyser with _ | a
    · exact absurd han ha
    simp only [hsrc, hflt, hgn, han, Option.getD_some] at p4 p5 p6
    rw [g4, g5, g6, g8, hsrc, hflt, hgn, han]
    simp only [Option.getD_some]
    refine ⟨by simp, by simp, by simp, ?_, ?_, ?_⟩
    · exact stopTestTone_edges p4 (by rw [hsrc] at d1; exact d1)
        (by rw [hsrc] at d4; exact d4)
    · exact stopTestTone_edges p5 (by rw [hflt] at d2; exact d2)
        (by rw [hflt] at d5; exact d5)
    · exact stopTestTone_edges p6 (by rw [hgn] at d3; exact d3)
        (by rw [hgn] at d6; exact d6)
  · intro hp
    rw [g7] at hp
    obtain ⟨p1, p2, p3⟩ := hidle hp
    rw [g4, g5, g6]
    exact ⟨p1, p2, p3⟩
  · rw [idsOk, g1, g2, g4, g5, g6, g8, g9, g10]
    exact ⟨f1, f2, freshLt_none _, freshLt_none _, f5, f6, f7,
      handlesNe_none_left _, handlesNe_none_left _, handlesNe_none_left _,
      handlesNe_none_left _, handlesNe_none_left _, handlesNe_none_left _⟩

/-- startTherapy while already playing and not switching is exactly
stopTherapy: the documented toggle overload. -/
theorem startTherapy_toggle {s : EngineState} (hp : s.isTherapyPlaying = true)
    (t : String) (now : ℕ) :
    startTherapy t false now s = stopTherapy s := by
  simp [startTherapy, hp]

/-- Resulting state of a live switch while playing: only the source handle is
replaced by the fresh handle and reconnected; filter and gain handles are the
same objects, and the timer fields are untouched. -/
theorem startTherapy_switch {s : EngineState} {src flt gn a : ℕ}
    (hp : s.isTherapyPlaying = true) (hsrc : s.therapySource = some src)
    (hflt : s.notchFilter = some flt) (hgn : s.therapyGain = some gn)
    (ha : s.analyser = some a) (t : String) (now : ℕ) :
    startTherapy t true now s =
      { s with currentSound := t, buffersCreated := s.buffersCreated + 1,
               therapySource := some s.nextId, nextId := s.nextId + 1,
               isTherapyPlaying := true,
               edges := insertEdge gn a (insertEdge flt gn (insertEdge s.nextId flt
                 (s.edges.filter (fun e => e.1 != src)))) } := by
  simp [startTherapy, ensureNotchFilter, ensureTherapyGain, connect,
    connectGuard, disconnectNode, hp, hsrc, hflt, hgn, ha]

/-- Resulting state of a fresh (non-switching) start from an idle state: the
whole source, filter, gain chain is created and connected and the timer is
started. -/
theorem startTherapy_fresh {s : EngineState} {a : ℕ}
    (hp : s.isTherapyPlaying = false) (hsrc : s.therapySource = none)
    (hflt : s.notchFilter = none) (hgn : s.therapyGain = none)
    (ha : s.analyser = some a) (t : String) (now : ℕ) :
    startTherapy t false now s =
      { s with currentSound := t, buffersCreated := s.buffersCreated + 1,
               therapySource := some s.nextId,
               notchFilter := some (s.nextId + 1),
               filterFreq := s.currentFrequency,
               therapyGain := some (s.nextId + 2), therapyGainValue := 7 / 10,
               nextId := s.nextId + 3, isTherapyPlaying := true,
               timerStart := some now, timerRunning := true,
               edges := insertEdge (s.nextId + 2) a
                 (insertEdge (s.nextId + 1) (s.nextId + 2)
                   (insertEdge s.nextId (s.nextId + 1) s.edges)) } := by
  simp [startTherapy, ensureNotchFilter, ensureTherapyGain, connect,
    connectGuard, hp, hsrc, hflt, hgn, ha]

/-- Resulting state of a switch call issued while idle: same chain creation as
a fresh start, but the timer is not started. -/
theorem startTherapy_switch_idle {s : EngineState} {a : ℕ}
    (hp : s.isTherapyPlaying = false) (hsrc : s.therapySource = none)
    (hflt : s.notchFilter = none) (hgn : s.therapyGain = none)
    (ha : s.analyser = some a) (t : String) (now : ℕ) :
    startTherapy t true now s =
      { s with currentSound := t, buffersCreated := s.buffersCreated + 1,
               therapySource := some s.nextId,
               notchFilter := some (s.nextId + 1),
               filterFreq := s.currentFrequency,
               therapyGain := some (s.nextId + 2), therapyGainValue := 7 / 10,
               nextId := s.nextId + 3, isTherapyPlaying := true,
               edges := insertEdge (s.nextId + 2) a
                 (insertEdge (s.nextId + 1) (s.nextId + 2)
                   (insertEdge s.nextId (s.nextId + 1) s.edges)) } := by
  simp [startTherapy, ensureNotchFilter, ensureTherapyGain, connect,
    connectGuard, hp, hsrc, hflt, hgn, ha]

/-- Resulting state of playTestTone from a silent test tone when the master
gain exists. -/
theorem playTestTone_record {s : EngineState} {m : ℕ}
    (ht : s.isTestTonePlaying = false) (hm : s.masterGain = some m) :
    playTestTone s =
      { s with testOscillator := some s.nextId,
               testGain := some (s.nextId + 1), nextId := s.nextId + 2,
               oscFreq := s.currentFrequency, testGainValue := 3 / 10,
               isTestTonePlaying := true,
               edges := insertEdge (s.nextId + 1) m
                 (insertEdge s.nextId (s.nextId + 1) s.edges) } := by
  simp [playTestTone, connect, ht, hm]

/-- Resulting state of playTestTone when the master gain is absent (failed
initialization; the final connect is skipped, see playTestTone). -/
theorem playTestTone_record_noMaster {s : EngineState}
    (ht : s.isTestTonePlaying = false) (hm : s.masterGain = none) :
    playTestTone s =
      { s with testOscillator := some s.nextId,
               testGain := some (s.nextId + 1), nextId := s.nextId + 2,
               oscFreq := s.currentFrequency, testGainValue := 3 / 10,
               isTestTonePlaying := true,
               edges := insertEdge s.nextId (s.nextId + 1) s.edges } := by
  simp [playTestTone, connect, ht, hm]

/-- setFrequency touches only currentFrequency and the mirrored device
frequency parameters. -/
theorem setFrequency_fields (f : ℤ) (s : EngineState) :
    (setFrequency f s).currentFrequency = f ∧
    (setFrequency f s).therapySource = s.therapySource ∧
    (setFrequency f s).notchFilter = s.notchFilter ∧
    (setFrequency f s).therapyGain = s.therapyGain ∧
    (setFrequency f s).testOscillator = s.testOscillator ∧
    (setFrequency f s).testGain = s.testGain ∧
    (setFrequency f s).analyser = s.analyser ∧
    (setFrequency f s).masterGain = s.masterGain ∧
    (setFrequency f s).isTherapyPlaying = s.isTherapyPlaying ∧
    (setFrequency f s).isTestTonePlaying = s.isTestTonePlaying ∧
    (setFrequency f s).nextId = s.nextId ∧
    (setFrequency f s).edges = s.edges ∧
    (setFrequency f s).currentVolume = s.currentVolume ∧
    (setFrequency f s).currentSound = s.currentSound ∧
    (setFrequency f s).timerStart = s.timerStart ∧
    (setFrequency f s).timerRunning = s.timerRunning ∧
    (setFrequency f s).therapyDuration = s.therapyDuration ∧
    (setFrequency f s).autoStopFires = s.autoStopFires ∧
    (setFrequency f s).buffersCreated = s.buffersCreated := by
  simp only [setFrequency]
  split_ifs <;> simp

/-- setVolume touches only currentVolume and the mirrored master gain
parameter. -/
theorem setVolume_fields (v : ℚ) (s : EngineState) :
    (setVolume v s).currentVolume = v ∧
    (setVolume v s).therapySource = s.therapySource ∧
    (setVolume v s).notchFilter = s.notchFilter ∧
    (setVolume v s).therapyGain = s.therapyGain ∧
    (setVolume v s).testOscillator = s.testOscillator ∧
    (setVolume v s).testGain = s.testGain ∧
    (setVolume v s).analyser = s.analyser ∧
    (setVolume v s).masterGain = s.masterGain ∧
    (setVolume v s).isTherapyPlaying = s.isTherapyPlaying ∧
    (setVolume v s).isTestTonePlaying = s.isTestTonePlaying ∧
    (setVolume v s).nextId = s.nextId ∧
    (setVolume v s).edges = s.edges ∧
    (setVolume v s).currentFrequency = s.currentFrequency ∧
    (setVolume v s).currentSound = s.currentSound := by
  simp only [setVolume]
  split_ifs <;> simp

/-- The invariant does not mention the frequency, volume, sound or timer
fields: any state agreeing with s on the handle, flag, counter and edge
fields inherits the invariant of s. -/
theorem invFull_of_agree {s s2 : EngineState} (h : invFull s)
    (e1 : s2.analyser = s.analyser) (e2 : s2.masterGain = s.masterGain)
    (e3 : s2.testOscillator = s.testOscillator) (e4 : s2.testGain = s.testGain)
    (e5 : s2.therapySource = s.therapySource)
    (e6 : s2.notchFilter = s.notchFilter) (e7 : s2.therapyGain = s.therapyGain)
    (e8 : s2.isTherapyPlaying = s.isTherapyPlaying)
    (e9 : s2.nextId = s.nextId) (e10 : s2.edges = s.edges) :
    invFull s2 := by
  obtain ⟨⟨ha, hplay, hidle⟩, f1, f2, f3, f4, f5, f6, f7, d1, d2, d3, d4, d5, d6⟩ := h
  refine ⟨⟨?_, ?_, ?_⟩, ?_⟩
  · rw [e1]; exact ha
  · intro hp
    rw [e8] at hp
    obtain ⟨p1, p2, p3, p4, p5, p6⟩ := hplay hp
    rw [e1, e5, e6, e7, e10]
    exact ⟨p1, p2, p3, p4, p5, p6⟩
  · intro hp
    rw [e8] at hp
    obtain ⟨p1, p2, p3⟩ := hidle hp
    rw [e5, e6, e7]
    exact ⟨p1, p2, p3⟩
  · rw [idsOk, e1, e2, e3, e4, e5, e6, e7, e9]
    exact ⟨f1, f2, f3, f4, f5, f6, f7, d1, d2, d3, d4, d5, d6⟩

/-- setFrequency preserves the invariant. -/
theorem invFull_setFrequency {s : EngineState} (h : invFull s) (f : ℤ) :
    invFull (setFrequency f s) := by
  obtain ⟨_, g2, g3, g4, g5, g6, g7, g8, g9, _, g11, g12, _⟩ :=
    setFrequency_fields f s
  exact invFull_of_agree h g7 g8 g5 g6 g2 g3 g4 g9 g11 g12

/-- setVolume preserves the invariant. -/
theorem invFull_setVolume {s : EngineState} (h : invFull s) (v : ℚ) :
    invFull (setVolume v s) := by
  obtain ⟨_, g2, g3, g4, g5, g6, g7, g8, g9, _, g11, g12, _⟩ :=
    setVolume_fields v s
  exact invFull_of_agree h g7 g8 g5 g6 g2 g3 g4 g9 g11 g12

/-- playTestTone preserves the invariant: it either stops the tone or only
adds fresh nodes and edges on the test-tone side. -/
theorem invFull_playTestTone {s : EngineState} (h : invFull s) :
    invFull (playTestTone s) := by
  by_cases ht : s.isTestTonePlaying = true
  · have heq : playTestTone s = stopTestTone s := by simp [playTestTone, ht]
    rw [heq]; exact invFull_stopTestTone h
  · have ht2 : s.isTestTonePlaying = false := by
      cases hb : s.isTestTonePlaying
      · rfl
      · exact absurd hb ht
    obtain ⟨⟨ha, hplay, hidle⟩, f1, f2, f3, f4, f5, f6, f7,
      d1, d2, d3, d4, d5, d6⟩ := h
    rcases hm : s.masterGain with _ | m
    · rw [playTestTone_record_noMaster ht2 hm]
      refine ⟨⟨ha, ?_, ?_⟩, ?_⟩
      · intro hp
        obtain ⟨p1, p2, p3, p4, p5, p6⟩ := hplay hp
        exact ⟨p1, p2, p3, mem_insertEdge_of_mem _ _ p4,
          mem_insertEdge_of_mem _ _ p5, mem_insertEdge_of_mem _ _ p6⟩
      · intro hp; exact hidle hp
      · refine ⟨freshLt_mono f1 (Nat.le_add_right _ _),
          freshLt_mono f2 (Nat.le_add_right _ _),
          Or.inr (show s.nextId < s.nextId + 2 by omega),
          Or.inr (show s.nextId + 1 < s.nextId + 2 by omega),
          freshLt_mono f5 (Nat.le_add_right _ _),
          freshLt_mono f6 (Nat.le_add_right _ _),
          freshLt_mono f7 (Nat.le_add_right _ _),
          handlesNe_fresh_left f5, handlesNe_fresh_left f6,
          handlesNe_fresh_left f7,
          handlesNe_fresh_left (freshLt_mono f5 (Nat.le_add_right _ _)),
          handlesNe_fresh_left (freshLt_mono f6 (Nat.le_add_right _ _)),
          handlesNe_fresh_left (freshLt_mono f7 (Nat.le_add_right _ _))⟩
    · rw [playTestTone_record ht2 hm]
      refine ⟨⟨ha, ?_, ?_⟩, ?_⟩
      · intro hp
        obtain ⟨p1, p2, p3, p4, p5, p6⟩ := hplay hp
        exact ⟨p1, p2, p3,
          mem_insertEdge_of_mem _ _ (mem_insertEdge_of_mem _ _ p4),
          mem_insertEdge_of_mem _ _ (mem_insertEdge_of_mem _ _ p5),
          mem_insertEdge_of_mem _ _ (mem_insertEdge_of_mem _ _ p6)⟩
      · intro hp; exact hidle hp
      · refine ⟨freshLt_mono f1 (Nat.le_add_right _ _),
          freshLt_mono f2 (Nat.le_add_right _ _),
          Or.inr (show s.nextId < s.nextId + 2 by omega),
          Or.inr (show s.nextId + 1 < s.nextId + 2 by omega),
          freshLt_mono f5 (Nat.le_add_right _ _),
          freshLt_mono f6 (Nat.le_add_right _ _),
          freshLt_mono f7 (Nat.le_add_right _ _),
          handlesNe_fresh_left f5, handlesNe_fresh_left f6,
          handlesNe_fresh_left f7,
          handlesNe_fresh_left (freshLt_mono f5 (Nat.le_add_right _ _)),
          handlesNe_fresh_left (freshLt_mono f6 (Nat.le_add_right _ _)),
          handlesNe_fresh_left (freshLt_mono f7 (Nat.le_add_right _ _))⟩

/-- startTherapy preserves the invariant in all four of its behaviours:
toggle-stop, live switch, fresh start, and switch-while-idle. -/
theorem invFull_startTherapy {s : EngineState} (h : invFull s)
    (t : String) (sw : Bool) (now : ℕ) :
    invFull (startTherapy t sw now s) := by
  rcases han : s.analyser with _ | a
  · exact absurd han h.1.1
  obtain ⟨⟨ha, hplay, hidle⟩, f1, f2, f3, f4, f5, f6, f7,
    d1, d2, d3, d4, d5, d6⟩ := h
  by_cases hp : s.isTherapyPlaying = true
  · cases sw
    · rw [startTherapy_toggle hp]
      exact invFull_stopTherapy ⟨⟨ha, hplay, hidle⟩, f1, f2, f3, f4, f5, f6,
        f7, d1, d2, d3, d4, d5, d6⟩
    · obtain ⟨p1, p2, p3, p4, p5, p6⟩ := hplay hp
      rcases hsrc : s.therapySource with _ | src
      · exact absurd hsrc p1
      rcases hflt : s.notchFilter with _ | flt
      · exact absurd hflt p2
      rcases hgn : s.therapyGain with _ | gn
      · exact absurd hgn p3
      have hchain2 : ∀ s2 : EngineState,
          s2.analyser = s.analyser → s2.masterGain = s.masterGain →
          s2.testOscillator = s.testOscillator → s2.testGain = s.testGain →
          s2.therapySource = some s.nextId →
          s2.notchFilter = s.notchFilter → s2.therapyGain = s.therapyGain →
          s2.isTherapyPlaying = true → s2.nextId = s.nextId + 1 →
          s2.edges = insertEdge gn a (insertEdge flt gn (insertEdge s.nextId flt
            (s.edges.filter (fun e => e.1 != src)))) →
          invFull s2 := by
        intro s2 e1 e2 e3 e4 e5 e6 e7 e8 e9 e10
        refine ⟨⟨by rw [e1]; exact ha, ?_, ?_⟩, ?_⟩
        · intro _
          rw [e1, e5, e6, e7, e10, hflt, hgn, han]
          simp only [Option.getD_some]
          refine ⟨by simp, by simp, by simp, ?_, ?_, ?_⟩
          · exact mem_insertEdge_of_mem _ _ (mem_insertEdge_of_mem _ _
              (mem_insertEdge_self _ _ _))
          · exact mem_insertEdge_of_mem _ _ (mem_insertEdge_self _ _ _)
          · exact mem_insertEdge_self _ _ _
        · intro hfalse; rw [e8] at hfalse; cases hfalse
        · rw [idsOk, e1, e2, e3, e4, e5, e6, e7, e9]
          refine ⟨freshLt_mono f1 (by omega), freshLt_mono f2 (by omega),
            freshLt_mono f3 (by omega), freshLt_mono f4 (by omega),
            Or.inr (by simp only [Option.getD_some]; omega),
            freshLt_mono f6 (by omega), freshLt_mono f7 (by omega),
            handlesNe_of_freshLt f3, d2, d3,
            handlesNe_of_freshLt f4, d5, d6⟩
      rw [startTherapy_switch hp hsrc hflt hgn han]
      exact hchain2 _ rfl rfl rfl rfl rfl rfl rfl rfl rfl rfl
  · have hp2 : s.isTherapyPlaying = false := by
      cases hb : s.isTherapyPlaying
      · rfl
      · exact absurd hb hp
    obtain ⟨hsrc, hflt, hgn⟩ := hidle hp2
    have hchain : ∀ s2 : EngineState,
        s2.analyser = s.analyser → s2.masterGain = s.masterGain →
        s2.testOscillator = s.testOscillator → s2.testGain = s.testGain →
        s2.therapySource = some s.nextId →
        s2.notchFilter = some (s.nextId + 1) →
        s2.therapyGain = some (s.nextId + 2) →
        s2.isTherapyPlaying = true → s2.nextId = s.nextId + 3 →
        s2.edges = insertEdge (s.nextId + 2) a
          (insertEdge (s.nextId + 1) (s.nextId + 2)
            (insertEdge s.nextId (s.nextId + 1) s.edges)) →
        invFull s2 := by
      intro s2 e1 e2 e3 e4 e5 e6 e7 e8 e9 e10
      refine ⟨⟨by rw [e1]; exact ha, ?_, ?_⟩, ?_⟩
      · intro _
        rw [e1, e5, e6, e7, e10, han]
        refine ⟨by simp, by simp, by simp, ?_, ?_, ?_⟩
        · exact mem_insertEdge_of_mem _ _ (mem_insertEdge_of_mem _ _
            (mem_insertEdge_self _ _ _))
        · exact mem_insertEdge_of_mem _ _ (mem_insertEdge_self _ _ _)
        · exact mem_insertEdge_self _ _ _
      · intro hfalse; rw [e8] at hfalse; cases hfalse
      · rw [idsOk, e1, e2, e3, e4, e5, e6, e7, e9]
        refine ⟨freshLt_mono f1 (by omega), freshLt_mono f2 (by omega),
          freshLt_mono f3 (by omega), freshLt_mono f4 (by omega),
          Or.inr (by simp only [Option.getD_some]; omega),
          Or.inr (by simp only [Option.getD_some]; omega),
          Or.inr (by simp only [Option.getD_some]; omega),
          handlesNe_of_freshLt f3,
          handlesNe_of_freshLt (freshLt_mono f3 (by omega)),
          handlesNe_of_freshLt (freshLt_mono f3 (by omega)),
          handlesNe_of_freshLt f4,
          handlesNe_of_freshLt (freshLt_mono f4 (by omega)),
          handlesNe_of_freshLt (freshLt_mono f4 (by omega))⟩
    cases sw
    · rw [startTherapy_fresh hp2 hsrc hflt hgn han]
      exact hchain _ rfl rfl rfl rfl rfl rfl rfl rfl rfl rfl
    · rw [startTherapy_switch_idle hp2 hsrc hflt hgn han]
      exact hchain _ rfl rfl rfl rfl rfl rfl rfl rfl rfl rfl

/-- The invariant ignores the auto-stop counter. -/
theorem invFull_update_fires {s : EngineState} (h : invFull s) (n : ℕ) :
    invFull { s with autoStopFires := n } :=
  invFull_of_agree h rfl rfl rfl rfl rfl rfl rfl rfl rfl rfl

/-- The invariant ignores the elapsed-seconds counter. -/
theorem invFull_update_duration {s : EngineState} (h : invFull s) (n : ℕ) :
    invFull { s with therapyDuration := n } :=
  invFull_of_agree h rfl rfl rfl rfl rfl rfl rfl rfl rfl rfl

/-- timerTick preserves the invariant: it either only advances the counter or
performs a regular stopTherapy plus a callback count. -/
theorem invFull_timerTick {s : EngineState} (h : invFull s) :
    invFull (timerTick s) := by
  simp only [timerTick]
  split
  · split
    · exact invFull_update_fires
        (invFull_stopTherapy (invFull_update_duration h _)) _
    · exact invFull_update_duration h _
  · exact h

/-- The freshly initialized engine satisfies the invariant. -/
theorem invFull_initState : invFull initState := by decide

/-- A live switch leaves every timer field untouched: the timer is started
only on the non-switching path. -/
theorem startTherapy_switch_timer (t : String) (now : ℕ) (s : EngineState) :
    (startTherapy t true now s).timerStart = s.timerStart ∧
    (startTherapy t true now s).timerRunning = s.timerRunning ∧
    (startTherapy t true now s).therapyDuration = s.therapyDuration := by
  unfold startTherapy ensureNotchFilter ensureTherapyGain connect disconnectNode
  rcases h1 : s.therapySource with _ | src <;>
    rcases h2 : s.notchFilter with _ | flt <;>
      rcases h3 : s.therapyGain with _ | gn <;>
        rcases h4 : s.analyser with _ | a <;>
          simp [h1, h2, h3, h4, connectGuard]

/-- A tick on a state whose interval has been cleared changes nothing. -/
theorem timerTick_stopped {s : EngineState} (h : s.timerRunning = false) :
    timerTick s = s := by
  simp [timerTick, h]

/-- Ticks on a state whose interval has been cleared change nothing. -/
theorem iterate_timerTick_stopped {s : EngineState}
    (h : s.timerRunning = false) (m : ℕ) : timerTick^[m] s = s := by
  induction m with
  | zero => rfl
  | succ k ih => rw [Function.iterate_succ_apply', ih, timerTick_stopped h]

/-- Below the 1800-second threshold, k ticks only advance the counter by k. -/
theorem timerTick_below {s : EngineState} (hrun : s.timerRunning = true) :
    ∀ k, s.therapyDuration + k < 1800 →
      timerTick^[k] s = { s with therapyDuration := s.therapyDuration + k } := by
  intro k
  induction k with
  | zero => intro _; rfl
  | succ k ih =>
    intro hk
    rw [Function.iterate_succ_apply', ih (by omega)]
    have h2 : ¬(1800 ≤ s.therapyDuration + k + 1) := by omega
    simp only [timerTick]
    rw [if_pos hrun, if_neg h2, Nat.add_assoc]

/-- The tick that reaches 1800 elapsed seconds stops therapy, clears the
interval, and fires the auto-stop callback once. -/
theorem timerTick_fires {s : EngineState} (hrun : s.timerRunning = true)
    (hdur : s.therapyDuration = 1799) :
    (timerTick s).isTherapyPlaying = false ∧
    (timerTick s).timerRunning = false ∧
    (timerTick s).autoStopFires = s.autoStopFires + 1 := by
  obtain ⟨_, _, _, g4, g5, _, _, _, _, _, _, _, _, _, _, _, g17, _⟩ :=
    stopTherapy_fields { s with therapyDuration := s.therapyDuration + 1 }
  have hge : 1800 ≤ s.therapyDuration + 1 := by omega
  simp only [timerTick]
  rw [if_pos hrun, if_pos hge]
  exact ⟨g4, g5, by simp only [g17]⟩

/-- Every public operation preserves the full invariant. -/
theorem invFull_step (op : Op) {s : EngineState} (h : invFull s) :
    invFull (step op s) := by
  cases op <;> simp only [step, destroy]
  · exact invFull_setFrequency h _
  · exact invFull_setVolume h _
  · exact invFull_playTestTone h
  · exact invFull_stopTestTone h
  · exact invFull_startTherapy h _ _ _
  · exact invFull_stopTherapy h
  · exact invFull_timerTick h
  · exact h
  · exact invFull_stopTherapy (invFull_stopTestTone h)

/-! ### Claims -/

/-- C1: once therapy is running with the timer live and zero elapsed seconds,
reaching the fixed threshold of 1800 one-second ticks stops therapy
(isTherapyPlaying false) and fires the registered auto-stop callback exactly
once, however many further ticks occur; and a live sound switch (startTherapy
with isSwitching true) does not reset or restart the timer.  The 1800-second
tick handler is modelled from the spec (see timerTick); the no-reset-on-switch
half is proved from the embedded startTherapy. -/
theorem claim_C1_auto_stop (s : EngineState) (c : ℕ)
    (hrun : s.timerRunning = true) (hdur : s.therapyDuration = 0)
    (hfires : s.autoStopFires = c) (n : ℕ) (hn : 1800 ≤ n) :
    (timerTick^[n] s).isTherapyPlaying = false ∧
    (timerTick^[n] s).autoStopFires = c + 1 ∧
    (∀ t now, (startTherapy t true now s).timerStart = s.timerStart ∧
      (startTherapy t true now s).timerRunning = s.timerRunning ∧
      (startTherapy t true now s).therapyDuration = s.therapyDuration) := by
  have hbelow := timerTick_below hrun 1799 (by omega)
  set B : EngineState := { s with therapyDuration := s.therapyDuration + 1799 }
    with hB
  have hBrun : B.timerRunning = true := hrun
  have hBdur : B.therapyDuration = 1799 := by
    show s.therapyDuration + 1799 = 1799
    omega
  obtain ⟨t1, t2, t3⟩ := timerTick_fires hBrun hBdur
  have h1800 : timerTick^[1800] s = timerTick B := by
    rw [show (1800 : ℕ) = 1799 + 1 by norm_num, Function.iterate_succ_apply',
      hbelow]
  have hsplit : n = (n - 1800) + 1800 := by omega
  have hfull : timerTick^[n] s = timerTick B := by
    conv_lhs => rw [hsplit]
    rw [Function.iterate_add_apply, h1800]
    exact iterate_timerTick_stopped t2 _
  refine ⟨by rw [hfull]; exact t1, ?_, ?_⟩
  · rw [hfull, t3]
    show s.autoStopFires + 1 = c + 1
    rw [hfires]
  · intro t now
    exact startTherapy_switch_timer t now s

/-- C1 witness: on the concrete playing state, 1800 ticks stop therapy and
fire the callback once, and a switch leaves the timer untouched. -/
theorem claim_C1_auto_stop_witness :
    (timerTick^[1800] playingState).isTherapyPlaying = false ∧
    (timerTick^[1800] playingState).autoStopFires = 0 + 1 ∧
    (∀ t now, (startTherapy t true now playingState).timerStart =
        playingState.timerStart ∧
      (startTherapy t true now playingState).timerRunning =
        playingState.timerRunning ∧
      (startTherapy t true now playingState).therapyDuration =
        playingState.therapyDuration) :=
  claim_C1_auto_stop playingState 0 (by decide) (by decide) (by decide) 1800
    (by decide)

/-- C2 counterexample: the claim says the brown-noise base process divides by
1 + k = 1.02 for k = 0.02; already the first output sample of the process the
source computes (divisor 1.002) differs from that formula. -/
theorem claim_C2_spec_divisor_refuted :
    brownSeq (fun _ => 1) 0 ≠ brownSpecSeq 0.02 1.02 (fun _ => 1) 0 := by
  norm_num [brownSeq, brownStep, brownSpecSeq]

/-- C2 amended: for every sample index the brown-noise base process used by
the Rain and Wave textures computes out[i] = (prev + 0.02 * white[i]) / 1.002
(coefficient k = 0.02 as claimed, but divisor 1.002 rather than 1.02), and
the Rain and Wave samples are built from exactly this process. -/
theorem claim_C2_brown_base_process (w gate spike : ℕ → ℚ) (N i : ℕ) :
    brownSeq w i = brownSpecSeq 0.02 1.002 w i ∧
    rainSample w gate spike i = brownSpecSeq 0.02 1.002 w i * 2 +
      (if 0.9995 < gate i then spike i * 0.5 else 0) ∧
    waveSample w N i = (brownSpecSeq 0.02 1.002 w i : ℝ) * 4 *
      (0.5 + 0.5 * Real.sin ((i / N) * Real.pi * 2)) := by
  have hmain : ∀ j, brownSeq w j = brownSpecSeq 0.02 1.002 w j := by
    intro j
    induction j with
    | zero => rfl
    | succ m ih =>
      show brownStep (brownSeq w m) (w (m + 1)) = _
      rw [ih]
      rfl
  refine ⟨hmain i, ?_, ?_⟩
  · rw [rainSample, hmain i]
  · rw [waveSample, hmain i]

/-- C3 counterexample: setFrequency (-100) stores -100, not the claimed
clamped value 250: the source performs no clamping. -/
theorem claim_C3_no_clamping :
    (setFrequency (-100) initState).currentFrequency = -100 ∧
    (setFrequency (-100) initState).currentFrequency ≠ 250 := by
  decide

/-- C3 amended: setFrequency stores every input unchanged in
currentFrequency (no clamping to [250, 16000] is performed by the engine);
inputs are never rejected: the operation is total and always stores. -/
theorem claim_C3_stores_input (f : ℤ) (s : EngineState) :
    (setFrequency f s).currentFrequency = f :=
  (setFrequency_fields f s).1

/-- C4 counterexample: at sample 3 of an 8-sample Forest buffer the
sinusoidal envelope evaluates to 0.4, outside the claimed range [0.7, 1.0]. -/
theorem claim_C4_envelope_dips :
    forestWind 8 3 = 0.4 ∧ ¬ forestWindLowerClaim 8 3 := by
  have hsin : Real.sin (((3 : ℝ) / 8) * Real.pi * 4) = -1 := by
    have harg : ((3 : ℝ) / 8) * Real.pi * 4 = Real.pi + Real.pi / 2 := by
      ring
    rw [harg, Real.sin_add]
    simp [Real.sin_pi, Real.cos_pi, Real.sin_pi_div_two, Real.cos_pi_div_two]
  have hval : forestWind 8 3 = 0.4 := by
    unfold forestWind windFun
    push_cast
    rw [hsin]
    norm_num
  refine ⟨hval, ?_⟩
  unfold forestWindLowerClaim
  rw [hval]
  norm_num

/-- C4 amended: every Forest sample is the pink-noise value at that index
multiplied by the envelope 0.7 + 0.3 * sin(4 pi t) at relative position
t = i / N; the envelope completes two full cycles over the buffer (its period
in t is 1/2), and its range is [0.4, 1.0], not [0.7, 1.0]. -/
theorem claim_C4_forest_envelope (w : ℕ → ℝ) (N i : ℕ) :
    forestSample w N i = pinkOut w i * windFun ((i : ℝ) / (N : ℝ)) ∧
    (∀ t : ℝ, 0.4 ≤ windFun t ∧ windFun t ≤ 1) ∧
    (∀ t : ℝ, windFun (t + 1 / 2) = windFun t) := by
  refine ⟨rfl, ?_, ?_⟩
  · intro t
    have hs1 := Real.neg_one_le_sin (t * Real.pi * 4)
    have hs2 := Real.sin_le_one (t * Real.pi * 4)
    unfold windFun
    constructor <;> nlinarith
  · intro t
    unfold windFun
    have harg : (t + 1 / 2) * Real.pi * 4 = t * Real.pi * 4 + 2 * Real.pi := by
      ring
    rw [harg, Real.sin_add_two_pi]

/-- C5: calling startTherapy non-switching while therapy is playing performs
exactly stopTherapy: afterwards isTherapyPlaying is false, no buffer is
synthesized and no node is allocated (buffersCreated and nextId unchanged),
and the source handle is released. -/
theorem claim_C5_toggle (t : String) (now : ℕ) (s : EngineState)
    (hp : s.isTherapyPlaying = true) :
    startTherapy t false now s = stopTherapy s ∧
    (startTherapy t false now s).isTherapyPlaying = false ∧
    (startTherapy t false now s).buffersCreated = s.buffersCreated ∧
    (startTherapy t false now s).nextId = s.nextId ∧
    (startTherapy t false now s).therapySource = none := by
  have he := startTherapy_toggle hp t now
  obtain ⟨g1, _, _, g4, _, _, _, _, _, _, g11, _, _, _, _, _, _, g18⟩ :=
    stopTherapy_fields s
  rw [he]
  exact ⟨rfl, g4, g18, g11, g1⟩

/-- C5 witness: starting rain again on the concrete playing state stops it. -/
theorem claim_C5_toggle_witness :
    startTherapy "rain" false 7 playingState = stopTherapy playingState ∧
    (startTherapy "rain" false 7 playingState).isTherapyPlaying = false ∧
    (startTherapy "rain" false 7 playingState).buffersCreated =
      playingState.buffersCreated ∧
    (startTherapy "rain" false 7 playingState).nextId = playingState.nextId ∧
    (startTherapy "rain" false 7 playingState).therapySource = none :=
  claim_C5_toggle "rain" 7 playingState (by decide)

/-- C6: a live switch while playing keeps the very same notch-filter and
therapy-gain handles (same object identity), keeps isTherapyPlaying true,
replaces only the source handle with a freshly allocated one, and does not
restart the session timer. -/
theorem claim_C6_live_switch (t : String) (now : ℕ) (s : EngineState)
    (src flt gn a : ℕ)
    (hp : s.isTherapyPlaying = true) (hsrc : s.therapySource = some src)
    (hflt : s.notchFilter = some flt) (hgn : s.therapyGain = some gn)
    (ha : s.analyser = some a) (hlt : src < s.nextId) :
    (startTherapy t true now s).notchFilter = some flt ∧
    (startTherapy t true now s).therapyGain = some gn ∧
    (startTherapy t true now s).isTherapyPlaying = true ∧
    (startTherapy t true now s).therapySource = some s.nextId ∧
    (startTherapy t true now s).therapySource ≠ s.therapySource ∧
    (startTherapy t true now s).timerStart = s.timerStart ∧
    (startTherapy t true now s).timerRunning = s.timerRunning ∧
    (startTherapy t true now s).therapyDuration = s.therapyDuration := by
  rw [startTherapy_switch hp hsrc hflt hgn ha]
  refine ⟨hflt, hgn, rfl, rfl, ?_, rfl, rfl, rfl⟩
  rw [hsrc]
  simp only [ne_eq, Option.some.injEq]
  omega

/-- C6 witness: switching the concrete playing state to forest keeps filter
handle 4 and gain handle 5 and the timer, and replaces source 3 by 6. -/
theorem claim_C6_live_switch_witness :
    (startTherapy "forest" true 9 playingState).notchFilter = some 4 ∧
    (startTherapy "forest" true 9 playingState).therapyGain = some 5 ∧
    (startTherapy "forest" true 9 playingState).isTherapyPlaying = true ∧
    (startTherapy "forest" true 9 playingState).therapySource =
      some playingState.nextId ∧
    (startTherapy "forest" true 9 playingState).therapySource ≠
      playingState.therapySource ∧
    (startTherapy "forest" true 9 playingState).timerStart =
      playingState.timerStart ∧
    (startTherapy "forest" true 9 playingState).timerRunning =
      playingState.timerRunning ∧
    (startTherapy "forest" true 9 playingState).therapyDuration =
      playingState.therapyDuration :=
  claim_C6_live_switch "forest" 9 playingState 3 4 5 2 (by decide) (by decide)
    (by decide) (by decide) (by decide) (by decide)

/-- C7: stopTherapy never raises (the explicit-exception embedding always
returns ok, every nullable access being guarded), is idempotent, and leaves
isTherapyPlaying false with all three therapy handles released, from any
state, including one where therapy was never started. -/
theorem claim_C7_stop_idempotent (s : EngineState) :
    stopTherapyE s = JsResult.ok (stopTherapy s) ∧
    stopTherapy (stopTherapy s) = stopTherapy s ∧
    (stopTherapy s).isTherapyPlaying = false ∧
    (stopTherapy s).therapySource = none ∧
    (stopTherapy s).notchFilter = none ∧
    (stopTherapy s).therapyGain = none := by
  obtain ⟨g1, g2, g3, g4, g5, _, _, _, _, _, _, _, _, _, _, _, _, _⟩ :=
    stopTherapy_fields s
  refine ⟨?_, stopTherapy_clean g1 g2 g3 g4 g5, g4, g1, g2, g3⟩
  unfold stopTherapyE stopTherapy nodeStop
  rcases h1 : s.therapySource with _ | src <;> simp [h1]

/-- C8 counterexample: getAnalyserData on the freshly initialized engine with
therapy NOT playing still returns a snapshot, not the claimed no-data
sentinel: the sentinel depends only on the analyser existing. -/
theorem claim_C8_returns_data_when_idle :
    initState.isTherapyPlaying = false ∧
    getAnalyserData (fun n => List.replicate n 128) initState ≠ none := by
  constructor
  · rfl
  · decide

/-- C8 amended: getAnalyserData returns the fixed-size snapshot (bufferLength
frequencyBinCount = 1024 and the device read of that length) whenever the
analyser exists, regardless of isTherapyPlaying, and returns the null
sentinel exactly when audio initialization failed (analyser absent); the call
never changes the engine state. -/
theorem claim_C8_snapshot_gate (deviceRead : ℕ → List ℕ) (s : EngineState) :
    (s.analyser ≠ none →
      getAnalyserData deviceRead s =
        some ⟨frequencyBinCount, deviceRead frequencyBinCount⟩) ∧
    (s.analyser = none → getAnalyserData deviceRead s = none) ∧
    step Op.getAnalyserData s = s := by
  refine ⟨?_, ?_, rfl⟩
  · intro h
    rcases ha : s.analyser with _ | a
    · exact absurd ha h
    · simp [getAnalyserData, ha]
  · intro h
    simp [getAnalyserData, h]

/-- C8 witness: on the initialized engine the snapshot is returned, on the
failed-initialization state the sentinel is returned. -/
theorem claim_C8_snapshot_gate_witness :
    getAnalyserData (fun n => List.replicate n 0) initState =
      some ⟨frequencyBinCount, List.replicate frequencyBinCount 0⟩ ∧
    getAnalyserData (fun n => List.replicate n 0) failedInitState = none :=
  ⟨(claim_C8_snapshot_gate (fun n => List.replicate n 0) initState).1
      (by decide),
    (claim_C8_snapshot_gate (fun n => List.replicate n 0) failedInitState).2.1
      (by decide)⟩

/-- C9: every public operation preserves the processing-graph invariant:
whenever isTherapyPlaying is true the source, filter and gain handles are all
non-null and connected source to filter to gain to the analyser sink, and
whenever it is false all three are null (graphInv, strengthened to the
inductive invariant invFull that additionally tracks handle freshness). -/
theorem claim_C9_graph_invariant (op : Op) (s : EngineState)
    (h : invFull s) :
    invFull (step op s) ∧ graphInv (step op s) := by
  have h2 := invFull_step op h
  exact ⟨h2, h2.1⟩

/-- C9 witness: starting rain on the freshly initialized engine (which
satisfies the invariant) preserves it. -/
theorem claim_C9_graph_invariant_witness :
    invFull (step (Op.startTherapy "rain" false 0) initState) ∧
    graphInv (step (Op.startTherapy "rain" false 0) initState) :=
  claim_C9_graph_invariant (Op.startTherapy "rain" false 0) initState
    (by decide)

/-- C10: on the toggle-stop path (startTherapy non-switching while playing)
currentSound, currentFrequency and currentVolume are left unchanged; in
particular currentSound is not updated to the argument, because the stop
branch returns before the assignment. -/
theorem claim_C10_toggle_frame (t : String) (now : ℕ) (s : EngineState)
    (hp : s.isTherapyPlaying = true) :
    (startTherapy t false now s).currentSound = s.currentSound ∧
    (startTherapy t false now s).currentFrequency = s.currentFrequency ∧
    (startTherapy t false now s).currentVolume = s.currentVolume ∧
    (t ≠ s.currentSound → (startTherapy t false now s).currentSound ≠ t) := by
  have he := startTherapy_toggle hp t now
  obtain ⟨_, _, _, _, _, _, _, _, _, _, _, g12, g13, g14, _, _, _, _⟩ :=
    stopTherapy_fields s
  rw [he]
  refine ⟨g14, g12, g13, ?_⟩
  intro hne
  rw [g14]
  exact hne.symm

/-- C10 witness: toggling the concrete playing state with the argument temple
leaves sound, frequency and volume unchanged and does not store temple. -/
theorem claim_C10_toggle_frame_witness :
    (startTherapy "temple" false 4 playingState).currentSound =
      playingState.currentSound ∧
    (startTherapy "temple" false 4 playingState).currentFrequency =
      playingState.currentFrequency ∧
    (startTherapy "temple" false 4 playingState).currentVolume =
      playingState.currentVolume ∧
    ("temple" ≠ playingState.currentSound →
      (startTherapy "temple" false 4 playingState).currentSound ≠ "temple") :=
  claim_C10_toggle_frame "temple" 4 playingState (by decide)

end TinnitusCare
